import Mathlib

/-!
Verification of the session/retry/command-execution core of the Husqvarna
mower integration (src/Husqvarna.py and src/plugin.py): OAuth2 token
lifecycle, the bounded-retry HTTP wrapper with per-status-class handling,
the device registry, command dispatch, the worker command handler and the
adaptive polling scheduler.

The transport is modelled by an oracle assigning to every attempt index the
outcome that httpx would produce for that attempt (a status code with a
parsed body, or a transport-level exception).  Request payloads and URLs are
absorbed into the oracle: they are only handed to the transport and do not
influence the control flow under study.
-/

/-- Outcome of one transport attempt as seen by the retry wrapper
(source: src/Husqvarna.py, lines 420-424 and 465): an HTTP response with a
status code and parsed JSON body of type beta, or a transport failure
(httpx.TimeoutException / ConnectError / RequestError). -/
inductive HttpOutcome (β : Type) where
  | response (code : Nat) (body : β)
  | transportError
deriving DecidableEq

/-- Error descriptions the HTTP client records in self.error
(src/Husqvarna.py): analyzed c stands for the string built by
_analyze_http_error from a response with status c (lines 396-412);
unhandledStatus for the generic message of line 462; connectionError for
the message of line 466. -/
inductive HttpErr where
  | analyzed (code : Nat)
  | unhandledStatus (code : Nat)
  | connectionError
deriving DecidableEq

/-- Observable result of one _http_with_retry call (src/Husqvarna.py,
lines 414-475).  attempts counts transport attempts issued; sleeps lists
the time.sleep durations executed, in order; apiLimitUpdate is some b when
the call wrote self.api_limit_reached (a 2xx response clears it at line
429, _analyze_http_error sets it to (status == 429) at line 398) and none
when the call left the flag untouched; error is the final self.error. -/
structure HttpTrace (β : Type) where
  success : Bool
  body : Option β
  attempts : Nat
  sleeps : List Nat
  apiLimitUpdate : Option Bool
  error : Option HttpErr
deriving DecidableEq

/-- Fixed base delay in seconds (src/Husqvarna.py, line 33). -/
def API_CALL_DELAY : Nat := 2

/-- One iteration family of the while loop of _http_with_retry
(src/Husqvarna.py, lines 419-473).  The loop variable retry_counter is
encoded as 3 - fuel; the loop guard retry_counter < 3 is fuel > 0, and
every exit of the source loop is a break, taken here as a terminal value.
idx is the 0-based index of the attempt about to be issued (equal to
retry_counter on entry of every reachable iteration, since the counter is
incremented exactly once per non-terminal iteration).  The sleep executed
before a retry is API_CALL_DELAY * (retry_counter + 1) with the already
incremented counter (line 473), i.e. API_CALL_DELAY * (idx + 2). -/
def httpAux {β : Type} (oracle : Nat → HttpOutcome β) : Nat → Nat → List Nat → HttpTrace β
  | 0, idx, sl => ⟨false, none, idx, sl, none, none⟩
  | fuel+1, idx, sl =>
    match oracle idx with
    | .transportError =>
      -- lines 465-470: record connection error, retry up to the ceiling
      if fuel = 0 then ⟨false, none, idx+1, sl, none, some .connectionError⟩
      else httpAux oracle fuel (idx+1) (sl ++ [API_CALL_DELAY * (idx + 2)])
    | .response c b =>
      -- lines 427-431: 2xx succeeds, clears the rate-limit flag
      if 200 ≤ c ∧ c < 300 then ⟨true, some b, idx+1, sl, some false, none⟩
      -- lines 435-440: 403 is retried like a transient failure
      else if c = 403 then
        if fuel = 0 then ⟨false, none, idx+1, sl, some (decide (c = 429)), some (.analyzed c)⟩
        else httpAux oracle fuel (idx+1) (sl ++ [API_CALL_DELAY * (idx + 2)])
      -- lines 443-449: other 4xx (429 included) terminal, analyzed
      else if 400 ≤ c ∧ c < 500 then
        ⟨false, none, idx+1, sl, some (decide (c = 429)), some (.analyzed c)⟩
      -- lines 452-457: 5xx retried up to the ceiling
      else if 500 ≤ c ∧ c < 600 then
        if fuel = 0 then ⟨false, none, idx+1, sl, some (decide (c = 429)), some (.analyzed c)⟩
        else httpAux oracle fuel (idx+1) (sl ++ [API_CALL_DELAY * (idx + 2)])
      -- lines 460-463: any other status terminal with a generic error
      else ⟨false, none, idx+1, sl, none, some (.unhandledStatus c)⟩

/-- _http_with_retry (src/Husqvarna.py, lines 414-475): the loop entered
with retry_counter = 0, i.e. fuel 3, before the first attempt. -/
def httpWithRetry {β : Type} (oracle : Nat → HttpOutcome β) : HttpTrace β :=
  httpAux oracle 3 0 []

theorem httpAux_attempts_le {β : Type} (oracle : Nat → HttpOutcome β) :
    ∀ (fuel idx : Nat) (sl : List Nat), (httpAux oracle fuel idx sl).attempts ≤ idx + fuel := by
  intro fuel
  induction fuel with
  | zero => intro idx sl; simp [httpAux]
  | succ f ih =>
    intro idx sl
    simp only [httpAux]
    cases h : oracle idx with
    | transportError =>
      by_cases hf : f = 0
      · simp [hf]
      · dsimp only
        rw [if_neg hf]
        have hrec := ih (idx+1) (sl ++ [API_CALL_DELAY * (idx + 2)])
        omega
    | response c b =>
      dsimp only
      split_ifs <;>
        first
          | (have hrec := ih (idx+1) (sl ++ [API_CALL_DELAY * (idx + 2)]); omega)
          | (dsimp only; omega)

theorem httpAux_attempts_ge {β : Type} (oracle : Nat → HttpOutcome β) :
    ∀ (fuel idx : Nat) (sl : List Nat), 1 ≤ fuel →
      idx + 1 ≤ (httpAux oracle fuel idx sl).attempts := by
  intro fuel
  induction fuel with
  | zero => intro idx sl h; omega
  | succ f ih =>
    intro idx sl _
    simp only [httpAux]
    cases h : oracle idx with
    | transportError =>
      by_cases hf : f = 0
      · simp [hf]
      · dsimp only
        rw [if_neg hf]
        have hrec := ih (idx+1) (sl ++ [API_CALL_DELAY * (idx + 2)]) (by omega)
        omega
    | response c b =>
      dsimp only
      split_ifs <;>
        first
          | (have hrec := ih (idx+1) (sl ++ [API_CALL_DELAY * (idx + 2)]) (by omega); omega)
          | (dsimp only; omega)

theorem httpAux_sleeps {β : Type} (oracle : Nat → HttpOutcome β) :
    ∀ (fuel idx : Nat) (sl : List Nat),
      (httpAux oracle fuel idx sl).sleeps
        = sl ++ (List.range ((httpAux oracle fuel idx sl).attempts - idx - 1)).map
            (fun i => API_CALL_DELAY * (idx + i + 2)) := by
  intro fuel
  induction fuel with
  | zero => intro idx sl; simp [httpAux, Nat.sub_sub]
  | succ f ih =>
    intro idx sl
    simp only [httpAux]
    cases h : oracle idx with
    | transportError =>
      by_cases hf : f = 0
      · simp [hf, Nat.sub_sub]
      · dsimp only
        rw [if_neg hf]
        have hge := httpAux_attempts_ge oracle f (idx+1) (sl ++ [API_CALL_DELAY * (idx + 2)]) (by omega)
        have hrec := ih (idx+1) (sl ++ [API_CALL_DELAY * (idx + 2)])
        rw [hrec]
        obtain ⟨m, hm⟩ :
            ∃ m, (httpAux oracle f (idx+1) (sl ++ [API_CALL_DELAY * (idx + 2)])).attempts
              = idx + 2 + m :=
          ⟨(httpAux oracle f (idx+1) (sl ++ [API_CALL_DELAY * (idx + 2)])).attempts - (idx + 2),
            by omega⟩
        rw [hm]
        rw [show idx + 2 + m - (idx+1) - 1 = m from by omega,
            show idx + 2 + m - idx - 1 = m + 1 from by omega]
        have htail : List.map (fun i => API_CALL_DELAY * (idx + 1 + i + 2)) (List.range m)
            = List.map ((fun i => API_CALL_DELAY * (idx + i + 2)) ∘ Nat.succ) (List.range m) :=
          List.map_congr_left (fun i _ => by
            simp only [API_CALL_DELAY, Function.comp_apply, Nat.succ_eq_add_one]; omega)
        rw [List.append_assoc, List.singleton_append, htail, ← List.map_map,
          List.range_succ_eq_map, List.map_cons]
    | response c b =>
      dsimp only
      split_ifs <;>
        first
          | (dsimp only; simp [Nat.sub_sub])
          | (have hge := httpAux_attempts_ge oracle f (idx+1) (sl ++ [API_CALL_DELAY * (idx + 2)]) (by omega)
             have hrec := ih (idx+1) (sl ++ [API_CALL_DELAY * (idx + 2)])
             rw [hrec]
             obtain ⟨m, hm⟩ :
                 ∃ m, (httpAux oracle f (idx+1) (sl ++ [API_CALL_DELAY * (idx + 2)])).attempts
                   = idx + 2 + m :=
               ⟨(httpAux oracle f (idx+1) (sl ++ [API_CALL_DELAY * (idx + 2)])).attempts - (idx + 2),
                 by omega⟩
             rw [hm]
             rw [show idx + 2 + m - (idx+1) - 1 = m from by omega,
                 show idx + 2 + m - idx - 1 = m + 1 from by omega]
             have htail : List.map (fun i => API_CALL_DELAY * (idx + 1 + i + 2)) (List.range m)
                 = List.map ((fun i => API_CALL_DELAY * (idx + i + 2)) ∘ Nat.succ) (List.range m) :=
               List.map_congr_left (fun i _ => by
                 simp only [API_CALL_DELAY, Function.comp_apply, Nat.succ_eq_add_one]; omega)
             rw [List.append_assoc, List.singleton_append, htail, ← List.map_map,
               List.range_succ_eq_map, List.map_cons])

theorem httpAux_analyzed_flag {β : Type} (oracle : Nat → HttpOutcome β) :
    ∀ (fuel idx : Nat) (sl : List Nat) (c : Nat),
      (httpAux oracle fuel idx sl).error = some (HttpErr.analyzed c) →
      (httpAux oracle fuel idx sl).apiLimitUpdate = some (decide (c = 429)) := by
  intro fuel
  induction fuel with
  | zero => intro idx sl c hc; simp [httpAux] at hc
  | succ f ih =>
    intro idx sl c
    simp only [httpAux]
    cases h : oracle idx with
    | transportError =>
      by_cases hf : f = 0
      · simp [hf]
      · dsimp only
        rw [if_neg hf]
        exact ih (idx+1) _ c
    | response c2 b =>
      dsimp only
      split_ifs <;>
        first
          | (exact ih (idx+1) _ c)
          | (intro hc; simp_all)

/-- Claim C4: every logical HTTP call makes at most 3 transport attempts;
a response sequence 500, 500, 200 yields success with the parsed body of
the third response using exactly 3 attempts; a call whose first response
is 404 returns failure after exactly 1 attempt. -/
theorem http_retry_attempt_contract :
    (∀ (β : Type) (oracle : Nat → HttpOutcome β), (httpWithRetry oracle).attempts ≤ 3)
    ∧ (∀ (x y z : Nat),
        httpWithRetry (fun i => if i = 0 then HttpOutcome.response 500 x
          else if i = 1 then HttpOutcome.response 500 y else HttpOutcome.response 200 z)
          = ⟨true, some z, 3, [4, 6], some false, none⟩)
    ∧ (∀ (β : Type) (oracle : Nat → HttpOutcome β) (b : β),
        oracle 0 = HttpOutcome.response 404 b →
        (httpWithRetry oracle).success = false ∧ (httpWithRetry oracle).attempts = 1) := by
  refine ⟨fun β oracle => httpAux_attempts_le oracle 3 0 [], fun x y z => rfl, ?_⟩
  intro β oracle b h
  constructor <;> simp [httpWithRetry, httpAux, h]

/-- Claim C4 witness: the 404 part of the contract at a concrete oracle. -/
theorem http_retry_attempt_contract_witness :
    (httpWithRetry (fun _ => HttpOutcome.response 404 (0 : Nat))).success = false
    ∧ (httpWithRetry (fun _ => HttpOutcome.response 404 (0 : Nat))).attempts = 1 :=
  http_retry_attempt_contract.2.2 Nat (fun _ => HttpOutcome.response 404 0) 0 rfl

/-- Claim C8 counterexample: the claim says a fixed minimum delay of about
2 seconds precedes every attempt, the first included.  In the code the
sleep of line 473 runs only after a failed retryable attempt, so a call
whose first attempt succeeds issues that attempt with no preceding delay:
1 attempt but an empty sleep list. -/
theorem first_attempt_no_delay_cex :
    (httpWithRetry (fun _ => HttpOutcome.response 200 (0 : Nat))).attempts = 1
    ∧ (httpWithRetry (fun _ => HttpOutcome.response 200 (0 : Nat))).sleeps = [] :=
  ⟨rfl, rfl⟩

/-- Claim C8 amended: no delay precedes the first attempt; a delay of
API_CALL_DELAY times the attempt number (4s before attempt 2, 6s before
attempt 3) precedes every retry attempt of the same logical call. -/
theorem http_retry_backoff_schedule (β : Type) (oracle : Nat → HttpOutcome β) :
    (httpWithRetry oracle).sleeps
      = (List.range ((httpWithRetry oracle).attempts - 1)).map
          (fun i => API_CALL_DELAY * (i + 2)) := by
  have h := httpAux_sleeps oracle 3 0 []
  simpa [httpWithRetry] using h

/-- Claim C9: whenever a call terminates by analyzing an error response of
status c (the branches that call _analyze_http_error), the rate-limit flag
is written and its new value is exactly (c == 429), regardless of the
previous flag value; hence a non-429 analyzed error clears a previously
set flag even though no 2xx success occurred. -/
theorem analyze_error_sets_rate_flag {β : Type} (oracle : Nat → HttpOutcome β) (c : Nat) :
    (httpWithRetry oracle).error = some (HttpErr.analyzed c) →
    (httpWithRetry oracle).apiLimitUpdate = some (decide (c = 429))
    ∧ ∀ ap : Bool, ((httpWithRetry oracle).apiLimitUpdate.getD ap) = decide (c = 429) := by
  intro h
  have h2 : (httpWithRetry oracle).apiLimitUpdate = some (decide (c = 429)) :=
    httpAux_analyzed_flag oracle 3 0 [] c h
  refine ⟨h2, fun ap => ?_⟩
  rw [h2]
  rfl

/-- Claim C9 witness: a call analyzed as a 404 error writes the flag to
false even when it was previously true. -/
theorem analyze_error_sets_rate_flag_witness :
    (httpWithRetry (fun _ => HttpOutcome.response 404 (0 : Nat))).apiLimitUpdate = some false
    ∧ ((httpWithRetry (fun _ => HttpOutcome.response 404 (0 : Nat))).apiLimitUpdate.getD true)
        = false :=
  ⟨(analyze_error_sets_rate_flag (fun _ => HttpOutcome.response 404 (0 : Nat)) 404 rfl).1,
   (analyze_error_sets_rate_flag (fun _ => HttpOutcome.response 404 (0 : Nat)) 404 rfl).2 true⟩

/-! State model of the Husqvarna class (src/Husqvarna.py, lines 197-343).
Instants (datetime values) are modelled as Int seconds relative to
2000-01-01; session headers as an association list with the update
semantics of dict.update.  The parsed JSON of the token endpoint is
modelled by the AccessToken record, whose total fields carry the .get
defaults of the source. -/

def STATE_OFF : String := "OFF"
def STATE_ERROR : String := "ERROR"
def ACTION_PARKNEXTSCHEDULE : String := "ParkUntilNextSchedule"
def ACTION_PARKFURTHERNOTICE : String := "ParkUntilFurtherNotice"
def ACTION_RESUMESCHEDULE : String := "ResumeSchedule"
def ACTION_START : String := "Start"
def ACTION_PAUSE : String := "Pause"
def HDR_CONTENT_TYPE : String := "Content-Type"
def MIME_FORM : String := "application/x-www-form-urlencoded"
def MIME_JSON_API : String := "application/vnd.api+json"
def HDR_X_API_KEY : String := "x-api-key"
def HDR_AUTHORIZATION : String := "Authorization"
def HDR_AUTH_PROVIDER : String := "Authorization-Provider"
def HDR_ACCEPT : String := "accept"

/-- Value of datetime(2000, 1, 1), the initial access_token_expiration and
timestamp_last_update_mower_list (src/Husqvarna.py, lines 204-205). -/
def DATETIME_2000 : Int := 0

structure AccessToken where
  token_type : String
  access_token : String
  provider : String
  expires_in : Int
deriving DecidableEq

/-- Errors recorded in self.error: an HTTP client error or the
bad-authentication message of src/Husqvarna.py, line 335. -/
inductive ErrMsg where
  | http (e : HttpErr)
  | badAuth
deriving DecidableEq

structure GeoPos where
  latitude : Int
  longitude : Int
deriving DecidableEq

/-- One entry of self.mowers.  The source uses dicts whose keys appear as
the list is populated (_get_mowers stores id and name, lines 346-347;
_get_mower_detailed_info adds the remaining keys, lines 351-367); a field
value none stands both for an absent key and for a JSON null, matching
the .get accesses of the source. -/
structure Mower where
  id : Option String
  name : Option String
  state : Option String
  activity : Option String
  battery_pct : Option Int
  location : Option GeoPos
  cutting_height : Option Int
  error_state : Option String
deriving DecidableEq

/-- Mutable attributes of a Husqvarna instance (src/Husqvarna.py,
lines 199-208 and the session headers of line 225). -/
structure HusqState where
  mowers : List Mower
  client_id : String
  client_secret : String
  access_token : Option AccessToken
  access_token_expiration : Int
  error : Option ErrMsg
  api_limit_reached : Bool
  headers : List (String × String)
deriving DecidableEq

/-- dict.update with a single key on the session headers. -/
def updateHeader (hs : List (String × String)) (k v : String) : List (String × String) :=
  if hs.any (fun p => decide (p.1 = k)) then
    hs.map (fun p => if p.1 = k then (k, v) else p)
  else hs ++ [(k, v)]

/-- dict.update with several keys, applied left to right. -/
def updateHeaders (hs : List (String × String)) (upd : List (String × String)) :
    List (String × String) :=
  upd.foldl (fun acc p => updateHeader acc p.1 p.2) hs

def getHeader (hs : List (String × String)) (k : String) : Option String :=
  (hs.find? (fun p => decide (p.1 = k))).map (fun p => p.2)

/-- Result of a state-mutating operation returning a status boolean;
calls counts the transport attempts issued on its behalf. -/
structure OpResult where
  state : HusqState
  ok : Bool
  calls : Nat
deriving DecidableEq

/-- _get_access_token (src/Husqvarna.py, lines 311-336): clears the
session headers and installs the form content-type (lines 312-313),
assigns the call result to self.access_token (line 319), then on a truthy
token records success, computes the expiry instant with the 600s margin
(line 324) and installs the authorization headers (lines 326-331); on a
falsy token records the bad-authentication error and returns False
(lines 335-336), with the cleared headers and the overwritten token left
as they are. -/
def get_access_token (s : HusqState) (now : Int)
    (oracleAuth : Nat → HttpOutcome AccessToken) : OpResult :=
  let hs1 := updateHeader [] HDR_CONTENT_TYPE MIME_FORM
  let t := httpWithRetry oracleAuth
  let s1 : HusqState :=
    { s with
      headers := hs1, access_token := t.body,
      error := t.error.map ErrMsg.http,
      api_limit_reached := t.apiLimitUpdate.getD s.api_limit_reached }
  match t.body with
  | some tok =>
    { state :=
        { s1 with
          error := none,
          access_token_expiration := now + tok.expires_in - 600,
          headers := updateHeaders s1.headers
            [(HDR_X_API_KEY, s.client_id),
             (HDR_AUTHORIZATION, tok.token_type ++ " " ++ tok.access_token),
             (HDR_AUTH_PROVIDER, tok.provider),
             (HDR_ACCEPT, MIME_JSON_API)] },
      ok := true, calls := t.attempts }
  | none =>
    { state := { s1 with error := some ErrMsg.badAuth }, ok := false, calls := t.attempts }

/-- Outcome of a Python call that can raise an uncaught exception. -/
inductive PyResult (α : Type) where
  | ok (a : α)
  | raised
deriving DecidableEq

structure CheckResult where
  state : HusqState
  result : PyResult Bool
  networkCall : Bool
  calls : Nat
deriving DecidableEq

/-- _check_access_token_and_renew (src/Husqvarna.py, lines 338-343): when
now is strictly past the stored expiry instant it renews through
_get_access_token; otherwise it returns True after a log statement that
dereferences self.access_token (line 342) and therefore raises
AttributeError when no token is held. -/
def check_access_token_and_renew (s : HusqState) (now : Int)
    (oracleAuth : Nat → HttpOutcome AccessToken) : CheckResult :=
  if now > s.access_token_expiration then
    let r := get_access_token s now oracleAuth
    { state := r.state, result := PyResult.ok r.ok, networkCall := true, calls := r.calls }
  else
    match s.access_token with
    | some _ => { state := s, result := PyResult.ok true, networkCall := false, calls := 0 }
    | none => { state := s, result := PyResult.raised, networkCall := false, calls := 0 }

def tokenCexOldToken : AccessToken :=
  ⟨("Bearer"), ("oldtoken"), ("husqvarna"), 3600⟩

def tokenCexState : HusqState :=
  { mowers := [],
    client_id := ("cid"), client_secret := ("sec"),
    access_token := some tokenCexOldToken,
    access_token_expiration := 500,
    error := none,
    api_limit_reached := false,
    headers := [(HDR_AUTHORIZATION, ("Bearer oldtoken"))] }

/-- Claim C1 counterexample: after a failed renewal (404 from the token
endpoint) the previously held access token is not left untouched: it has
been overwritten with None by line 319, and the Authorization header
cleared by line 312 is gone. -/
theorem token_overwritten_on_auth_failure_cex :
    (get_access_token tokenCexState 1000
        (fun _ => HttpOutcome.response 404 tokenCexOldToken)).state.access_token = none
    ∧ tokenCexState.access_token = some tokenCexOldToken
    ∧ getHeader (get_access_token tokenCexState 1000
        (fun _ => HttpOutcome.response 404 tokenCexOldToken)).state.headers HDR_AUTHORIZATION
        = none
    ∧ getHeader tokenCexState.headers HDR_AUTHORIZATION = some ("Bearer oldtoken") :=
  ⟨rfl, rfl, rfl, rfl⟩

/-- Claim C1 amended: a failed acquire/renew returns failure, records the
descriptive bad-authentication error, and leaves the cached expiry
instant and the device registry untouched; but the previously held access
token is overwritten with None (line 319 assigns before testing) and the
session headers are cleared down to the form content-type header of
lines 312-313, so the authorization headers are lost. -/
theorem get_access_token_failure_effects (s : HusqState) (now : Int)
    (oracleAuth : Nat → HttpOutcome AccessToken)
    (hfail : (get_access_token s now oracleAuth).ok = false) :
    (get_access_token s now oracleAuth).state.access_token = none
    ∧ (get_access_token s now oracleAuth).state.access_token_expiration
        = s.access_token_expiration
    ∧ (get_access_token s now oracleAuth).state.error = some ErrMsg.badAuth
    ∧ (get_access_token s now oracleAuth).state.headers = [(HDR_CONTENT_TYPE, MIME_FORM)]
    ∧ (get_access_token s now oracleAuth).state.mowers = s.mowers := by
  have hb : (httpWithRetry oracleAuth).body = none := by
    by_contra hb
    obtain ⟨tok, htok⟩ := Option.ne_none_iff_exists'.mp hb
    simp [get_access_token, htok] at hfail
  simp [get_access_token, hb, updateHeader]

/-- Claim C1 witness: the failure effects at a concrete state and a
transport-error oracle. -/
theorem get_access_token_failure_effects_witness :
    (get_access_token tokenCexState 1000 (fun _ => HttpOutcome.transportError)).state.access_token
        = none
    ∧ (get_access_token tokenCexState 1000
        (fun _ => HttpOutcome.transportError)).state.access_token_expiration
        = tokenCexState.access_token_expiration
    ∧ (get_access_token tokenCexState 1000 (fun _ => HttpOutcome.transportError)).state.error
        = some ErrMsg.badAuth
    ∧ (get_access_token tokenCexState 1000 (fun _ => HttpOutcome.transportError)).state.headers
        = [(HDR_CONTENT_TYPE, MIME_FORM)]
    ∧ (get_access_token tokenCexState 1000 (fun _ => HttpOutcome.transportError)).state.mowers
        = tokenCexState.mowers :=
  get_access_token_failure_effects tokenCexState 1000 (fun _ => HttpOutcome.transportError) rfl

def renewCexState : HusqState :=
  { mowers := [],
    client_id := ("cid"), client_secret := ("sec"),
    access_token := some tokenCexOldToken,
    access_token_expiration := 100,
    error := none,
    api_limit_reached := false,
    headers := [] }

/-- Claim C3 counterexample: with a held token whose expiry instant T is
100 and now equal to 100, the claim requires a network call (now ≥ T),
but the strict comparison of line 339 makes the check return success with
no network call. -/
theorem token_renew_boundary_cex :
    (check_access_token_and_renew renewCexState 100
        (fun _ => HttpOutcome.transportError)).networkCall = false
    ∧ (100 : Int) ≥ renewCexState.access_token_expiration
    ∧ renewCexState.access_token = some tokenCexOldToken :=
  ⟨rfl, by decide, rfl⟩

/-- Claim C3 amended: the acquire-or-renew check performs a network
authentication call iff now is strictly greater than the stored expiry
instant; otherwise it performs no network call, leaves the state
untouched and returns success whenever a token is held.  There is no
separate no-token-held test: a missing token only triggers a call because
the expiry instant is initialized (and kept, on failed renewals) in the
past. -/
theorem check_access_token_renew_iff (s : HusqState) (now : Int)
    (oracleAuth : Nat → HttpOutcome AccessToken) :
    ((check_access_token_and_renew s now oracleAuth).networkCall = true
      ↔ now > s.access_token_expiration)
    ∧ (now ≤ s.access_token_expiration →
        (check_access_token_and_renew s now oracleAuth).calls = 0
        ∧ (check_access_token_and_renew s now oracleAuth).state = s
        ∧ (∀ tok, s.access_token = some tok →
            (check_access_token_and_renew s now oracleAuth).result = PyResult.ok true)) := by
  unfold check_access_token_and_renew
  by_cases h : now > s.access_token_expiration
  · simp [h]
  · cases htok : s.access_token <;> simp [h, htok]

/-- Claim C3 witness: with expiry instant 100 and now 50 the check makes
no call, keeps the state and succeeds. -/
theorem check_access_token_renew_iff_witness :
    (check_access_token_and_renew renewCexState 50
        (fun _ => HttpOutcome.transportError)).calls = 0
    ∧ (check_access_token_and_renew renewCexState 50
        (fun _ => HttpOutcome.transportError)).state = renewCexState
    ∧ (check_access_token_and_renew renewCexState 50
        (fun _ => HttpOutcome.transportError)).result = PyResult.ok true := by
  have h := (check_access_token_renew_iff renewCexState 50
    (fun _ => HttpOutcome.transportError)).2 (by decide)
  exact ⟨h.1, h.2.1, h.2.2 tokenCexOldToken rfl⟩

/-- ErrorCodes table (src/Husqvarna.py, lines 48-195). -/
def ErrorCodes : List (Int × String) := [
  (0, "Unexpected error"),
  (1, "Outside working area"),
  (2, "No loop signal"),
  (3, "Wrong loop signal"),
  (4, "Loop sensor problem, front"),
  (5, "Loop sensor problem, rear"),
  (6, "Loop sensor problem, left"),
  (7, "Loop sensor problem, right"),
  (8, "Wrong PIN code"),
  (9, "Trapped"),
  (10, "Upside down"),
  (11, "Low battery"),
  (12, "Empty battery"),
  (13, "No drive"),
  (14, "Mower lifted"),
  (15, "Lifted"),
  (16, "Stuck in charging station"),
  (17, "Charging station blocked"),
  (18, "Collision sensor problem, rear"),
  (19, "Collision sensor problem, front"),
  (20, "Wheel motor blocked, right"),
  (21, "Wheel motor blocked, left"),
  (22, "Wheel drive problem, right"),
  (23, "Wheel drive problem, left"),
  (24, "Cutting system blocked"),
  (25, "Cutting system blocked"),
  (26, "Invalid sub-device combination"),
  (27, "Settings restored"),
  (28, "Memory circuit problem"),
  (29, "Slope too steep"),
  (30, "Charging system problem"),
  (31, "STOP button problem"),
  (32, "Tilt sensor problem"),
  (33, "Mower tilted"),
  (34, "Cutting stopped - slope too steep"),
  (35, "Wheel motor overloaded, right"),
  (36, "Wheel motor overloaded, left"),
  (37, "Charging current too high"),
  (38, "Electronic problem"),
  (39, "Cutting motor problem"),
  (40, "Limited cutting height range"),
  (41, "Unexpected cutting height adj"),
  (42, "Limited cutting height range"),
  (43, "Cutting height problem, drive"),
  (44, "Cutting height problem, curr"),
  (45, "Cutting height problem, dir"),
  (46, "Cutting height blocked"),
  (47, "Cutting height problem"),
  (48, "No response from charger"),
  (49, "Ultrasonic problem"),
  (50, "Guide 1 not found"),
  (51, "Guide 2 not found"),
  (52, "Guide 3 not found"),
  (53, "GPS navigation problem"),
  (54, "Weak GPS signal"),
  (55, "Difficult finding home"),
  (56, "Guide calibration accomplished"),
  (57, "Guide calibration failed"),
  (58, "Temporary battery problem"),
  (59, "Temporary battery problem"),
  (60, "Temporary battery problem"),
  (61, "Temporary battery problem"),
  (62, "Temporary battery problem"),
  (63, "Temporary battery problem"),
  (64, "Temporary battery problem"),
  (65, "Temporary battery problem"),
  (66, "Battery problem"),
  (67, "Battery problem"),
  (68, "Temporary battery problem"),
  (69, "Alarm! Mower switched off"),
  (70, "Alarm! Mower stopped"),
  (71, "Alarm! Mower lifted"),
  (72, "Alarm! Mower tilted"),
  (73, "Alarm! Mower in motion"),
  (74, "Alarm! Outside geofence"),
  (75, "Connection changed"),
  (76, "Connection NOT changed"),
  (77, "Com board not available"),
  (78, "Slipped - Mower has Slipped.Situation not solved with moving pattern"),
  (79, "Invalid battery combination - Invalid combination of different battery types."),
  (80, "Cutting system imbalance  Warning"),
  (81, "Safety function faulty"),
  (82, "Wheel motor blocked, rear right"),
  (83, "Wheel motor blocked, rear left"),
  (84, "Wheel drive problem, rear right"),
  (85, "Wheel drive problem, rear left"),
  (86, "Wheel motor overloaded, rear right"),
  (87, "Wheel motor overloaded, rear left"),
  (88, "Angular sensor problem"),
  (89, "Invalid system configuration"),
  (90, "No power in charging station"),
  (91, "Switch cord problem"),
  (92, "Work area not valid"),
  (93, "No accurate position from satellites"),
  (94, "Reference station communication problem"),
  (95, "Folding sensor activated"),
  (96, "Right brush motor overloaded"),
  (97, "Left brush motor overloaded"),
  (98, "Ultrasonic Sensor 1 defect"),
  (99, "Ultrasonic Sensor 2 defect"),
  (100, "Ultrasonic Sensor 3 defect"),
  (101, "Ultrasonic Sensor 4 defect"),
  (102, "Cutting drive motor 1 defect"),
  (103, "Cutting drive motor 2 defect"),
  (104, "Cutting drive motor 3 defect"),
  (105, "Lift Sensor defect"),
  (106, "Collision sensor defect"),
  (107, "Docking sensor defect"),
  (108, "Folding cutting deck sensor defect"),
  (109, "Loop sensor defect"),
  (110, "Collision sensor error"),
  (111, "No confirmed position"),
  (112, "Cutting system major imbalance"),
  (113, "Complex working area"),
  (114, "Too high discharge current"),
  (115, "Too high internal current"),
  (116, "High charging power loss"),
  (117, "High internal power loss"),
  (118, "Charging system problem"),
  (119, "Zone generator problem"),
  (120, "Internal voltage error"),
  (121, "High internal temerature"),
  (122, "CAN error"),
  (123, "Destination not reachable"),
  (124, "Destination blocked"),
  (125, "Battery needs replacement"),
  (126, "Battery near end of life"),
  (127, "Battery problem"),
  (701, "Connectivity problem"),
  (702, "Connectivity settings restored"),
  (703, "Connectivity problem"),
  (704, "Connectivity problem"),
  (705, "Connectivity problem"),
  (706, "Poor signal quality"),
  (707, "SIM card requires PIN"),
  (708, "SIM card locked"),
  (709, "SIM card not found"),
  (710, "SIM card locked"),
  (711, "SIM card locked"),
  (712, "SIM card locked"),
  (713, "Geofence problem"),
  (714, "Geofence problem"),
  (715, "Connectivity problem"),
  (716, "Connectivity problem"),
  (717, "SMS could not be sent"),
  (724, "Communication circuit board SW must be updated")]

/-- ErrorCodes.get(code): dictionary lookup with a None default
(src/Husqvarna.py, line 365). -/
def errorCodeMessage (code : Int) : Option String :=
  (ErrorCodes.find? (fun p => decide (p.1 = code))).map (fun p => p.2)

/-- get_mower_from_name (src/Husqvarna.py, lines 266-267): first mower
whose name equals the argument, None when absent. -/
def get_mower_from_name (s : HusqState) (name : String) : Option Mower :=
  s.mowers.find? (fun m => decide (m.name = some name))

/-- is_mower_off applied to a name (src/Husqvarna.py, lines 298-300):
some (state == OFF) for a registered mower, none for an unknown name. -/
def is_mower_off (s : HusqState) (name : String) : Option Bool :=
  (get_mower_from_name s name).map (fun m => decide (m.state = some STATE_OFF))

/-- _find_id_from_name (src/Husqvarna.py, lines 392-394). -/
def find_id_from_name (s : HusqState) (name : String) : Option String :=
  (get_mower_from_name s name).bind (fun m => m.id)

/-- Python truthiness of an Optional[bool]: None and False are falsy. -/
def truthyOptBool : Option Bool → Bool
  | some true => true
  | _ => false

/-- Python truthiness of an Optional[str]: None and the empty string are
falsy (used by the walrus tests on mower ids). -/
def truthyOptStr : Option String → Bool
  | none => false
  | some v => decide (v ≠ "")

/-- Parsed data.attributes of the per-mower detail endpoint as read by
_get_mower_detailed_info (src/Husqvarna.py, lines 355-364); each field
carries the .get default of the source.  The whole body is wrapped in an
Option at the HTTP layer: none there stands for a response without a data
key (or an otherwise falsy body). -/
structure MowerAttrs where
  batteryPercent : Option Int
  activity : Option String
  state : Option String
  positions : List GeoPos
  cuttingHeight : Option Int
  errorCode : Option Int
deriving DecidableEq

/-- Field updates applied to self.mowers[index] for one successful detail
response (src/Husqvarna.py, lines 356-367).  The error_state condition of
line 365 reads the state key assigned at line 359, hence the fresh
attributes decide it; an unknown error code yields None via the
dictionary default. -/
def updateMowerFromAttrs (m : Mower) (a : MowerAttrs) : Mower :=
  { m with
    battery_pct := a.batteryPercent,
    activity := a.activity,
    state := a.state,
    location := a.positions.head?,
    cutting_height := a.cuttingHeight,
    error_state :=
      match a.errorCode with
      | some code => if a.state = some STATE_ERROR then errorCodeMessage code else none
      | none => none }

structure DetailResult where
  mowers : List Mower
  ok : Bool
  api_limit : Bool
  error : Option ErrMsg
deriving DecidableEq

/-- Loop of _get_mower_detailed_info (src/Husqvarna.py, lines 352-371):
one _http_with_retry call per device, in list order; a call whose result
is falsy or lacks the data key sets status False and breaks, leaving the
remaining devices untouched.  idx indexes the per-device oracle; ap and
err thread the api_limit_reached flag and error string written by the
successive HTTP calls. -/
def detailAux (oracle : Nat → Nat → HttpOutcome (Option MowerAttrs)) :
    Nat → Bool → Option ErrMsg → List Mower → DetailResult
  | _, ap, err, [] => ⟨[], true, ap, err⟩
  | idx, ap, _err, m :: rest =>
    let t := httpWithRetry (oracle idx)
    let ap2 := t.apiLimitUpdate.getD ap
    let err2 := t.error.map ErrMsg.http
    match t.body with
    | some (some attrs) =>
      let r := detailAux oracle (idx+1) ap2 err2 rest
      ⟨updateMowerFromAttrs m attrs :: r.mowers, r.ok, r.api_limit, r.error⟩
    | _ => ⟨m :: rest, false, ap2, err2⟩

/-- _get_mower_detailed_info (src/Husqvarna.py, lines 351-372) as the
effect on the Husqvarna state together with its status return. -/
def get_mower_detailed_info (s : HusqState)
    (oracle : Nat → Nat → HttpOutcome (Option MowerAttrs)) : HusqState × Bool :=
  let r := detailAux oracle 0 s.api_limit_reached s.error s.mowers
  ({ s with mowers := r.mowers, api_limit_reached := r.api_limit, error := r.error }, r.ok)

/-- Parsed attributes delivered by the detail fetch for device index i:
some attrs exactly when that call succeeds with a data key. -/
def fetchAttrs (oracle : Nat → Nat → HttpOutcome (Option MowerAttrs)) (i : Nat) :
    Option MowerAttrs :=
  ((httpWithRetry (oracle i)).body).bind id

/-- Per-device updates over a prefix of the device list, for stating what
the refresh loop leaves behind. -/
def applyUpdates (oracle : Nat → Nat → HttpOutcome (Option MowerAttrs)) :
    Nat → List Mower → List Mower
  | _, [] => []
  | idx, m :: ms =>
    match fetchAttrs oracle idx with
    | some attrs => updateMowerFromAttrs m attrs :: applyUpdates oracle (idx+1) ms
    | none => m :: applyUpdates oracle (idx+1) ms

theorem detailAux_fail_at (oracle : Nat → Nat → HttpOutcome (Option MowerAttrs)) :
    ∀ (k idx : Nat) (ap : Bool) (err : Option ErrMsg) (ms : List Mower),
      k < ms.length →
      (∀ i, i < k → (fetchAttrs oracle (idx + i)).isSome = true) →
      fetchAttrs oracle (idx + k) = none →
      (detailAux oracle idx ap err ms).ok = false
      ∧ (detailAux oracle idx ap err ms).mowers
          = applyUpdates oracle idx (ms.take k) ++ ms.drop k := by
  intro k
  induction k with
  | zero =>
    intro idx ap err ms hk hsucc hfail
    cases ms with
    | nil => simp at hk
    | cons m rest =>
      rw [Nat.add_zero] at hfail
      simp only [detailAux]
      cases hb : (httpWithRetry (oracle idx)).body with
      | none => simp [hb, applyUpdates]
      | some ob =>
        cases ob with
        | none => simp [hb, applyUpdates]
        | some attrs =>
          exfalso
          rw [fetchAttrs, hb] at hfail
          simp at hfail
  | succ k ih =>
    intro idx ap err ms hk hsucc hfail
    cases ms with
    | nil => simp at hk
    | cons m rest =>
      have h0 : (fetchAttrs oracle idx).isSome = true := by
        have h1 := hsucc 0 (by omega)
        simpa using h1
      obtain ⟨attrs, hattrs⟩ := Option.isSome_iff_exists.mp h0
      have hb : (httpWithRetry (oracle idx)).body = some (some attrs) := by
        have hfa := hattrs
        rw [fetchAttrs] at hfa
        cases hb2 : (httpWithRetry (oracle idx)).body with
        | none => rw [hb2] at hfa; simp at hfa
        | some x => rw [hb2] at hfa; simp at hfa; rw [hfa]
      have hrec := ih (idx+1) ((httpWithRetry (oracle idx)).apiLimitUpdate.getD ap)
        (Option.map ErrMsg.http (httpWithRetry (oracle idx)).error) rest
        (by simp only [List.length_cons] at hk; omega)
        (fun i hi => by
          have h2 := hsucc (i+1) (by omega)
          rw [show idx + (i+1) = idx + 1 + i from by omega] at h2
          exact h2)
        (by
          rw [show idx + 1 + k = idx + (k+1) from by omega]
          exact hfail)
      constructor
      · simp only [detailAux]
        rw [hb]
        exact hrec.1
      · simp only [detailAux]
        rw [hb]
        simp only [List.take, List.drop, applyUpdates]
        rw [hattrs]
        simp [hrec.2]

/-- Claim C5: when the per-device detail fetch succeeds with data for
every device before position k and fails at position k, the whole refresh
reports failure, the devices before k keep the updates already applied to
them, and the devices at and after k are left unmodified (fail-fast, no
rollback). -/
theorem detailed_info_failfast (s : HusqState)
    (oracle : Nat → Nat → HttpOutcome (Option MowerAttrs)) (k : Nat)
    (hk : k < s.mowers.length)
    (hsucc : ∀ i, i < k → (fetchAttrs oracle i).isSome = true)
    (hfail : fetchAttrs oracle k = none) :
    (get_mower_detailed_info s oracle).2 = false
    ∧ (get_mower_detailed_info s oracle).1.mowers
        = applyUpdates oracle 0 (s.mowers.take k) ++ s.mowers.drop k := by
  have h := detailAux_fail_at oracle k 0 s.api_limit_reached s.error s.mowers hk
    (fun i hi => by simpa using hsucc i hi) (by simpa using hfail)
  exact ⟨by simp only [get_mower_detailed_info]; exact h.1,
    by simp only [get_mower_detailed_info]; exact h.2⟩

def detailWitMower1 : Mower :=
  ⟨some ("id1"), some ("M1"), none, none, none, none, none, none⟩

def detailWitMower2 : Mower :=
  ⟨some ("id2"), some ("M2"), none, none, none, none, none, none⟩

def detailWitMower3 : Mower :=
  ⟨some ("id3"), some ("M3"), none, none, none, none, none, none⟩

def detailWitState : HusqState :=
  { mowers := [detailWitMower1, detailWitMower2, detailWitMower3],
    client_id := ("cid"), client_secret := ("sec"),
    access_token := none, access_token_expiration := 0,
    error := none, api_limit_reached := false, headers := [] }

def detailWitAttrs : MowerAttrs :=
  ⟨some 77, some ("MOWING"), some ("IN_OPERATION"), [⟨51, 4⟩], some 5, none⟩

/-- Detail oracle: device 0 succeeds with data, every other device call
keeps returning 500 until the retry ceiling. -/
def detailWitOracle : Nat → Nat → HttpOutcome (Option MowerAttrs) :=
  fun i _ => if i = 0 then HttpOutcome.response 200 (some detailWitAttrs)
             else HttpOutcome.response 500 none

/-- Claim C5 witness: three devices, device 2 of 3 failing after the
retries: the batch fails, device 1 is updated, device 3 untouched. -/
theorem detailed_info_failfast_witness :
    (get_mower_detailed_info detailWitState detailWitOracle).2 = false
    ∧ (get_mower_detailed_info detailWitState detailWitOracle).1.mowers
        = applyUpdates detailWitOracle 0 (detailWitState.mowers.take 1)
          ++ detailWitState.mowers.drop 1 :=
  detailed_info_failfast detailWitState detailWitOracle 1 (by decide)
    (fun i hi => by
      have h0 : i = 0 := by omega
      subst h0
      decide)
    (by decide)

def ACTIONS_LIST : List String :=
  [ACTION_PARKNEXTSCHEDULE, ACTION_PARKFURTHERNOTICE, ACTION_PAUSE, ACTION_RESUMESCHEDULE,
   ACTION_START]

/-- Result of a command-dispatch operation: the Python return value (or a
raised exception), with the transport attempts split between the token
path (authCalls) and the action/settings endpoint (actionCalls). -/
structure ActionResult where
  state : HusqState
  result : PyResult Bool
  authCalls : Nat
  actionCalls : Nat
deriving DecidableEq

/-- _send_action_to_mower (src/Husqvarna.py, lines 374-390): validates
the action name (lines 375-377), checks/renews the token (line 379, which
can raise, see check_access_token_and_renew), resolves the name to an id
(line 382, a walrus truthiness test), and POSTs the action payload
through the HTTP client (line 388).  There is no OFF-state check here.
The payload (type/duration) and url are absorbed into the action oracle;
the oracle body Bool is the Python truthiness of the parsed response. -/
def send_action_to_mower (s : HusqState) (now : Int)
    (oracleAuth : Nat → HttpOutcome AccessToken) (oracleAction : Nat → HttpOutcome Bool)
    (mower_name action : String) (_duration : Int) : ActionResult :=
  if action ∈ ACTIONS_LIST then
    let c := check_access_token_and_renew s now oracleAuth
    match c.result with
    | PyResult.raised => ⟨c.state, PyResult.raised, c.calls, 0⟩
    | PyResult.ok false => ⟨c.state, PyResult.ok false, c.calls, 0⟩
    | PyResult.ok true =>
      if truthyOptStr (find_id_from_name c.state mower_name) then
        let s2 : HusqState :=
          { c.state with
            headers := updateHeader c.state.headers HDR_CONTENT_TYPE MIME_JSON_API }
        let t := httpWithRetry oracleAction
        let s3 : HusqState :=
          { s2 with
            error := t.error.map ErrMsg.http,
            api_limit_reached := t.apiLimitUpdate.getD s2.api_limit_reached }
        if t.body = some true then ⟨s3, PyResult.ok true, c.calls, t.attempts⟩
        else ⟨s3, PyResult.ok false, c.calls, t.attempts⟩
      else ⟨c.state, PyResult.ok false, c.calls, 0⟩
  else ⟨s, PyResult.ok false, 0, 0⟩

/-- set_cutting_height (src/Husqvarna.py, lines 280-289): token check,
name-to-id resolution, POST of the settings payload (the height rides in
the payload, absorbed into the oracle). -/
def set_cutting_height (s : HusqState) (now : Int)
    (oracleAuth : Nat → HttpOutcome AccessToken) (oracleAction : Nat → HttpOutcome Bool)
    (mower_name : String) (_height : Int) : ActionResult :=
  let c := check_access_token_and_renew s now oracleAuth
  match c.result with
  | PyResult.raised => ⟨c.state, PyResult.raised, c.calls, 0⟩
  | PyResult.ok false => ⟨c.state, PyResult.ok false, c.calls, 0⟩
  | PyResult.ok true =>
    if truthyOptStr (find_id_from_name c.state mower_name) then
      let s2 : HusqState :=
        { c.state with
          headers := updateHeader c.state.headers HDR_CONTENT_TYPE MIME_JSON_API }
      let t := httpWithRetry oracleAction
      let s3 : HusqState :=
        { s2 with
          error := t.error.map ErrMsg.http,
          api_limit_reached := t.apiLimitUpdate.getD s2.api_limit_reached }
      if t.body = some true then ⟨s3, PyResult.ok true, c.calls, t.attempts⟩
      else ⟨s3, PyResult.ok false, c.calls, t.attempts⟩
    else ⟨c.state, PyResult.ok false, c.calls, 0⟩

/-- ExecutionStatus of src/plugin.py, lines 132-136. -/
inductive ExecutionStatus where
  | INITIATED
  | DONE
  | ERROR
deriving DecidableEq

/-- Task action strings, the values of HusqvarnaAction
(src/plugin.py, lines 138-149). -/
def TASK_START : String := "Start"
def TASK_START_6H : String := "Start (6h)"
def TASK_PAUSE : String := "Pause"
def TASK_RESUME_SCHEDULE : String := "Resume Schedule"
def TASK_PARK_FURTHER : String := "Park Until Further Notice"
def TASK_PARK_NEXT : String := "Park Until Next Schedule"
def TASK_SET_CUTTING : String := "Set Cutting Height"

/-- Outcome of one worker command task: the api state afterwards, the
execution status written for the mower (none when nothing was written),
and the transport attempts split between token path and action path. -/
structure TaskOutcome where
  state : HusqState
  execStatus : Option ExecutionStatus
  authCalls : Nat
  actionCalls : Nat
deriving DecidableEq

/-- _handle_mower_command_task (src/plugin.py, lines 838-914).  The guard
of line 844 evaluates the truthiness of the Husqvarna instance, which
Python delegates to Husqvarna.__bool__ (src/Husqvarna.py, lines 210-214),
i.e. to an unconditional _get_access_token network call; on its failure
the handler returns at line 846.  Line 851 drops a task without a mower
name; line 855 refuses the command when is_mower_off is truthy (some
true; None for an unknown name is falsy and passes).  The dispatch of
lines 866-897 calls the api actions; a true status marks the mower DONE,
a false one ERROR, an unknown action or a missing cutting height leaves
the status unwritten, and an exception raised by the dispatch is caught
at line 912 and also marks ERROR. -/
def handle_mower_command_task (s : HusqState) (now : Int)
    (oracleAuth : Nat → HttpOutcome AccessToken) (oracleAction : Nat → HttpOutcome Bool)
    (action : String) (mower_name : Option String) (cutting_height : Option Int) :
    TaskOutcome :=
  let b := get_access_token s now oracleAuth
  if !b.ok then ⟨b.state, none, b.calls, 0⟩
  else
    match mower_name with
    | none => ⟨b.state, none, b.calls, 0⟩
    | some name =>
      if truthyOptBool (is_mower_off b.state name) then ⟨b.state, none, b.calls, 0⟩
      else
        let disp : Option ActionResult :=
          if action = TASK_START then
            some (send_action_to_mower b.state now oracleAuth oracleAction name ACTION_START 1440)
          else if action = TASK_START_6H then
            some (send_action_to_mower b.state now oracleAuth oracleAction name ACTION_START 360)
          else if action = TASK_PARK_FURTHER then
            some (send_action_to_mower b.state now oracleAuth oracleAction name
              ACTION_PARKFURTHERNOTICE 60)
          else if action = TASK_PARK_NEXT then
            some (send_action_to_mower b.state now oracleAuth oracleAction name
              ACTION_PARKNEXTSCHEDULE 60)
          else if action = TASK_PAUSE then
            some (send_action_to_mower b.state now oracleAuth oracleAction name ACTION_PAUSE 60)
          else if action = TASK_RESUME_SCHEDULE then
            some (send_action_to_mower b.state now oracleAuth oracleAction name
              ACTION_RESUMESCHEDULE 60)
          else if action = TASK_SET_CUTTING then
            match cutting_height with
            | some h => some (set_cutting_height b.state now oracleAuth oracleAction name h)
            | none => none
          else none
        match disp with
        | none => ⟨b.state, none, b.calls, 0⟩
        | some r =>
          match r.result with
          | PyResult.ok true =>
            ⟨r.state, some ExecutionStatus.DONE, b.calls + r.authCalls, r.actionCalls⟩
          | PyResult.ok false =>
            ⟨r.state, some ExecutionStatus.ERROR, b.calls + r.authCalls, r.actionCalls⟩
          | PyResult.raised =>
            ⟨r.state, some ExecutionStatus.ERROR, b.calls + r.authCalls, r.actionCalls⟩

theorem get_access_token_mowers (s : HusqState) (now : Int)
    (oracleAuth : Nat → HttpOutcome AccessToken) :
    (get_access_token s now oracleAuth).state.mowers = s.mowers := by
  unfold get_access_token
  cases hb : (httpWithRetry oracleAuth).body <;> simp [hb]

def offCexMower : Mower :=
  ⟨some ("id1"), some ("M1"), some STATE_OFF, none, none, none, none, none⟩

def offCexState : HusqState :=
  { mowers := [offCexMower],
    client_id := ("cid"), client_secret := ("sec"),
    access_token := none, access_token_expiration := 0,
    error := none, api_limit_reached := false, headers := [] }

def offCexToken : AccessToken := ⟨("Bearer"), ("tok"), ("husqvarna"), 3600⟩

/-- Claim C2 counterexample: a command task for a device whose cached
state is OFF is refused, but not without a network call: the api-presence
test of src/plugin.py line 844 invokes Husqvarna.__bool__, which runs
_get_access_token, so one token request is issued before the OFF guard of
line 855 is reached. -/
theorem off_guard_network_call_cex :
    (handle_mower_command_task offCexState 0
        (fun _ => HttpOutcome.response 200 offCexToken)
        (fun _ => HttpOutcome.response 200 true)
        TASK_PAUSE (some ("M1")) none).authCalls = 1
    ∧ (handle_mower_command_task offCexState 0
        (fun _ => HttpOutcome.response 200 offCexToken)
        (fun _ => HttpOutcome.response 200 true)
        TASK_PAUSE (some ("M1")) none).execStatus = none := ⟨rfl, rfl⟩

/-- Claim C2 amended: for every device whose cached state is OFF and for
every action kind, the worker handler refuses the command by the local
OFF check before any dispatch: no action-endpoint call is issued and no
execution status is written (in particular the command never succeeds).
Contrary to the original claim, a network call to the authentication
endpoint does occur first, triggered by the api-presence truthiness test
(Husqvarna.__bool__ delegates to _get_access_token). -/
theorem handle_command_off_guard (s : HusqState) (now : Int)
    (oracleAuth : Nat → HttpOutcome AccessToken) (oracleAction : Nat → HttpOutcome Bool)
    (action name : String) (ch : Option Int)
    (hoff : is_mower_off s name = some true) :
    (handle_mower_command_task s now oracleAuth oracleAction action (some name) ch).actionCalls
        = 0
    ∧ (handle_mower_command_task s now oracleAuth oracleAction action (some name) ch).execStatus
        = none := by
  have hm : is_mower_off (get_access_token s now oracleAuth).state name = some true := by
    unfold is_mower_off get_mower_from_name at hoff ⊢
    rw [get_access_token_mowers]
    exact hoff
  unfold handle_mower_command_task
  cases hb : (get_access_token s now oracleAuth).ok with
  | false => simp [hb]
  | true => simp [hb, hm, truthyOptBool]

/-- Claim C2 witness: the OFF guard at a concrete OFF device. -/
theorem handle_command_off_guard_witness :
    (handle_mower_command_task offCexState 0
        (fun _ => HttpOutcome.response 200 offCexToken)
        (fun _ => HttpOutcome.response 200 true)
        TASK_START (some ("M1")) none).actionCalls = 0
    ∧ (handle_mower_command_task offCexState 0
        (fun _ => HttpOutcome.response 200 offCexToken)
        (fun _ => HttpOutcome.response 200 true)
        TASK_START (some ("M1")) none).execStatus = none :=
  handle_command_off_guard offCexState 0
    (fun _ => HttpOutcome.response 200 offCexToken)
    (fun _ => HttpOutcome.response 200 true)
    TASK_START ("M1") none rfl

/-- Task action strings dispatched through _send_action_to_mower. -/
def SEND_TASKS : List String :=
  [TASK_START, TASK_START_6H, TASK_PAUSE, TASK_RESUME_SCHEDULE, TASK_PARK_FURTHER,
   TASK_PARK_NEXT]

/-- Claim C10: for a name absent from the registry, is_mower_off returns
None rather than a boolean; None is falsy, so the worker's OFF guard
passes, and the task is rejected only later: name-to-id resolution fails
inside the dispatched send, which returns false without any
action-endpoint call, and the handler records ERROR.  The held token is
assumed fresh (expires_in at least the 600s margin) so that the rejection
indeed happens at name resolution and not at the token step. -/
theorem unknown_mower_guard_passthrough (s : HusqState) (now : Int) (tok : AccessToken)
    (oracleAction : Nat → HttpOutcome Bool) (action name : String) (ch : Option Int)
    (hname : get_mower_from_name s name = none)
    (htok : 600 ≤ tok.expires_in)
    (haction : action ∈ SEND_TASKS) :
    is_mower_off s name = none
    ∧ truthyOptBool (is_mower_off s name) = false
    ∧ find_id_from_name s name = none
    ∧ (handle_mower_command_task s now (fun _ => HttpOutcome.response 200 tok)
        oracleAction action (some name) ch).execStatus = some ExecutionStatus.ERROR
    ∧ (handle_mower_command_task s now (fun _ => HttpOutcome.response 200 tok)
        oracleAction action (some name) ch).actionCalls = 0 := by
  have hfind : s.mowers.find? (fun m => decide (m.name = some name)) = none := by
    simpa [get_mower_from_name] using hname
  have htr : httpWithRetry (fun _ => HttpOutcome.response 200 tok)
      = ⟨true, some tok, 1, [], some false, none⟩ := rfl
  have hexp : ¬ (now > now + tok.expires_in - 600) := by omega
  refine ⟨by simp [is_mower_off, get_mower_from_name, hfind],
    by simp [truthyOptBool, is_mower_off, get_mower_from_name, hfind],
    by simp [find_id_from_name, get_mower_from_name, hfind], ?_⟩
  simp only [SEND_TASKS, List.mem_cons, List.not_mem_nil, or_false] at haction
  rcases haction with rfl | rfl | rfl | rfl | rfl | rfl <;>
    constructor <;>
      simp [handle_mower_command_task, get_access_token, htr, is_mower_off,
        get_mower_from_name, find_id_from_name, hfind, truthyOptBool, truthyOptStr,
        send_action_to_mower, check_access_token_and_renew, hexp, ACTIONS_LIST,
        TASK_START, TASK_START_6H, TASK_PAUSE, TASK_RESUME_SCHEDULE, TASK_PARK_FURTHER,
        TASK_PARK_NEXT, TASK_SET_CUTTING, ACTION_START, ACTION_PAUSE, ACTION_RESUMESCHEDULE,
        ACTION_PARKFURTHERNOTICE, ACTION_PARKNEXTSCHEDULE, updateHeader, updateHeaders]

def unknownWitState : HusqState :=
  { mowers := [],
    client_id := ("cid"), client_secret := ("sec"),
    access_token := none, access_token_expiration := 0,
    error := none, api_limit_reached := false, headers := [] }

def unknownWitToken : AccessToken := ⟨("Bearer"), ("tok2"), ("husqvarna"), 3600⟩

/-- Claim C10 witness: an empty registry, a fresh token and a Pause task
for an unknown name. -/
theorem unknown_mower_guard_passthrough_witness :
    is_mower_off unknownWitState ("MX") = none
    ∧ truthyOptBool (is_mower_off unknownWitState ("MX")) = false
    ∧ find_id_from_name unknownWitState ("MX") = none
    ∧ (handle_mower_command_task unknownWitState 0
        (fun _ => HttpOutcome.response 200 unknownWitToken)
        (fun _ => HttpOutcome.response 200 true) TASK_PAUSE (some ("MX")) none).execStatus
        = some ExecutionStatus.ERROR
    ∧ (handle_mower_command_task unknownWitState 0
        (fun _ => HttpOutcome.response 200 unknownWitToken)
        (fun _ => HttpOutcome.response 200 true) TASK_PAUSE (some ("MX")) none).actionCalls
        = 0 :=
  unknown_mower_guard_passthrough unknownWitState 0 unknownWitToken
    (fun _ => HttpOutcome.response 200 true) TASK_PAUSE ("MX") none rfl (by decide)
    (by decide)

/-- UpdateSpeed regimes (src/plugin.py, lines 124-130). -/
inductive UpdateSpeed where
  | NORMAL
  | NIGHT
  | LIMITS_EXCEEDED
  | ALL_OFF
  | SYSTEM_ERROR
deriving DecidableEq

/-- _adjust_update_frequency (src/plugin.py, lines 469-527) as the next
run_again counter (heartbeat ticks) and the new speed_status.  minute
stands for DomoticzConstants.MINUTE, the ticks-per-minute constant of the
helper module domoticzEx_tools (not under src; the claims hold for every
value).  api_present is the truthiness outcome of self.husqvarna_api in
the conditions of lines 490, 498 and 506; configured_interval the Mode5
parameter; run_again the current counter; hour the local hour.  Each
branch writes speed_status to its regime once per transition, i.e. the
status after the call is the branch regime (lines 486-488, 494-496,
502-504, 516-518, 525-527); the going-home branch of lines 506-510
leaves it unchanged. -/
def adjust_update_frequency (minute : ℚ) (system_retries : Nat) (api_present : Bool)
    (api_limit_reached all_off going_home : Bool) (hour : Nat)
    (run_again : ℚ) (configured_interval : ℚ) (speed : UpdateSpeed) : ℚ × UpdateSpeed :=
  if system_retries > 5 then
    (min (12 * 60 * minute) ((system_retries : ℚ) * minute * configured_interval),
      UpdateSpeed.SYSTEM_ERROR)
  else if api_present && api_limit_reached then
    (max (60 * minute) run_again, UpdateSpeed.LIMITS_EXCEEDED)
  else if api_present && all_off then
    (60 * minute, UpdateSpeed.ALL_OFF)
  else if api_present && going_home then
    (minute * configured_interval / 2, speed)
  else if hour ≥ 22 || hour ≤ 5 then
    (minute * 180, UpdateSpeed.NIGHT)
  else
    (minute * configured_interval, UpdateSpeed.NORMAL)

/-- Claim C6: when the rate-limit flag is set and simultaneously every
device is OFF, and the higher-priority system-error regime does not apply
(consecutive retries at most 5), the scheduler takes the rate-limit
branch: the next delay is max(60 minutes, current counter) which is at
least 60 minutes, and the recorded regime is LIMITS_EXCEEDED, not the
all-devices-off regime. -/
theorem rate_limit_precedes_all_off (minute run_again configured_interval : ℚ)
    (system_retries : Nat) (going_home : Bool) (hour : Nat) (speed : UpdateSpeed)
    (hretries : system_retries ≤ 5) :
    adjust_update_frequency minute system_retries true true true going_home hour
        run_again configured_interval speed
      = (max (60 * minute) run_again, UpdateSpeed.LIMITS_EXCEEDED)
    ∧ 60 * minute
        ≤ (adjust_update_frequency minute system_retries true true true going_home hour
            run_again configured_interval speed).1 := by
  have h : ¬ (system_retries > 5) := by omega
  have h1 : adjust_update_frequency minute system_retries true true true going_home hour
      run_again configured_interval speed
      = (max (60 * minute) run_again, UpdateSpeed.LIMITS_EXCEEDED) := by
    simp [adjust_update_frequency, h]
  exact ⟨h1, by rw [h1]; exact le_max_left _ _⟩

/-- Claim C6 witness: 6 ticks per minute, 0 retries, noon, counter at 3
ticks: the rate-limit branch wins over the all-off branch. -/
theorem rate_limit_precedes_all_off_witness :
    adjust_update_frequency 6 0 true true true false 12 3 1 UpdateSpeed.NORMAL
      = (max (60 * 6) 3, UpdateSpeed.LIMITS_EXCEEDED)
    ∧ (60 * 6 : ℚ)
        ≤ (adjust_update_frequency 6 0 true true true false 12 3 1 UpdateSpeed.NORMAL).1 :=
  rate_limit_precedes_all_off 6 3 1 0 false 12 UpdateSpeed.NORMAL (by omega)

/-- Cutting-height command transform (src/plugin.py, line 369): the
selector level becomes the 1-based step index queued for the mower. -/
def cutting_height_from_level (level : Nat) : Nat := level / 10 + 1

/-- Cutting-height display transform (src/plugin.py, line 669): a step
index read back by a status refresh is displayed at selector level
10 * (step - 1), guarded by the truthiness test of line 668. -/
def display_level_of_cutting_height (cutting_height : Nat) : Nat :=
  10 * (cutting_height - 1)

/-- Claim C7: for a selector level L that is a multiple of 10, the step
S = L / 10 + 1 sent by the set-cutting-height command and stored back by
a status refresh returning cuttingHeight = S is displayed again at level
10 * (S - 1) = L; S is at least 1, so the truthiness guard of line 668
lets the display update happen. -/
theorem cutting_height_round_trip (L : Nat) (m : Mower) (a : MowerAttrs)
    (hL : L % 10 = 0)
    (ha : a.cuttingHeight = some ((cutting_height_from_level L : Int))) :
    (updateMowerFromAttrs m a).cutting_height
        = some ((cutting_height_from_level L : Int))
    ∧ display_level_of_cutting_height (cutting_height_from_level L) = L
    ∧ 1 ≤ cutting_height_from_level L := by
  refine ⟨by simp [updateMowerFromAttrs, ha], ?_, ?_⟩
  · simp only [display_level_of_cutting_height, cutting_height_from_level]
    omega
  · simp only [cutting_height_from_level]
    omega

def cutWitMower : Mower := ⟨some ("id"), some ("M"), none, none, none, none, none, none⟩

def cutWitAttrs : MowerAttrs := ⟨none, none, none, [], some 4, none⟩

/-- Claim C7 witness: level 30 encodes to step 4, stored back and
displayed as 30 again. -/
theorem cutting_height_round_trip_witness :
    (updateMowerFromAttrs cutWitMower cutWitAttrs).cutting_height
        = some ((cutting_height_from_level 30 : Int))
    ∧ display_level_of_cutting_height (cutting_height_from_level 30) = 30
    ∧ 1 ≤ cutting_height_from_level 30 :=
  cutting_height_round_trip 30 cutWitMower cutWitAttrs (by decide) (by decide)
